import Mathlib

/-! ## String helpers

Executable counterparts of the Python string operations the scripts use
(`str.strip`, `str.lower`, `str.splitlines`, substring containment, and the
regular-expression match of `validate_semver`).  They are written over
`List Char` so that every theorem instance reduces inside the kernel.  -/

/-- `str.strip()` on a character list: drop whitespace on both ends. -/
def stripChars (l : List Char) : List Char :=
  ((l.dropWhile Char.isWhitespace).reverse.dropWhile Char.isWhitespace).reverse

/-- Python `s.strip()`. -/
def strip (s : String) : String :=
  String.mk (stripChars s.data)

/-- ASCII lower-casing of one character, as `str.lower()` does for ASCII. -/
def charLower (c : Char) : Char :=
  if 'A' ≤ c ∧ c ≤ 'Z' then Char.ofNat (c.toNat + 32) else c

/-- Python `s.lower()` (restricted to ASCII, which is all the scripts use). -/
def lowerAscii (s : String) : String :=
  String.mk (s.data.map charLower)

/-- Split a character list at every occurrence of `sep` (the separators are
consumed; `n` separators yield `n+1` groups, as Python `str.split(sep)`). -/
def splitOnChar (sep : Char) : List Char → List (List Char)
  | [] => [[]]
  | c :: t =>
    if c == sep then [] :: splitOnChar sep t
    else
      match splitOnChar sep t with
      | [] => [[c]]
      | g :: gs => (c :: g) :: gs

/-- Python `s.splitlines()` for `\n`-terminated text: split at newlines and
drop the trailing empty group produced by a final newline. -/
def splitlines (s : String) : List (List Char) :=
  let ps := splitOnChar '\n' s.data
  match ps.getLast? with
  | some [] => ps.dropLast
  | _ => ps

/-- Substring containment on character lists (Python `needle in haystack`). -/
def substrB (needle : List Char) : List Char → Bool
  | [] => needle.isEmpty
  | c :: t => needle.isPrefixOf (c :: t) || substrB needle t

/-! ## The SemVer validator of `git_check_in1.py`

`validate_semver` (lines 40–43) is
`re.match(r"^(0|[1-9]\d*)\.(0|[1-9]\d*)\.(0|[1-9]\d*)$", version) is not None`.
In Python, `$` matches at the end of the string *or just before a newline at
the end of the string*, so the faithful embedding accepts the core pattern
either exactly, or followed by one final `\n`.  (`\d` is modelled as an ASCII
digit; every input considered here is ASCII.) -/

/-- One numeric component of the pattern: `0|[1-9]\d*`. -/
def numComponent : List Char → Bool
  | [] => false
  | c :: rest =>
    if c == '0' then rest.isEmpty
    else c.isDigit && rest.all Char.isDigit

/-- The regex core `(0|[1-9]\d*)\.(0|[1-9]\d*)\.(0|[1-9]\d*)` matched against
the whole string: exactly three dot-separated numeric components. -/
def semverCoreMatch (s : String) : Bool :=
  match splitOnChar '.' s.data with
  | [x, y, z] => numComponent x && numComponent y && numComponent z
  | _ => false

/-- Embeds `validate_semver` (git_check_in1.py lines 40–43), including the
`re.match`/`$` semantics: the pattern also matches when a single trailing
newline follows the three components. -/
def validate_semver (s : String) : Bool :=
  semverCoreMatch s ||
    (match s.data.getLast? with
     | some '\n' => semverCoreMatch (String.mk s.data.dropLast)
     | _ => false)

/-- Modelled from the spec: a *strict* `MAJOR.MINOR.PATCH` string, exactly
three dot-separated numeric components with nothing before or after (the
anchoring a `\Z`-terminated pattern would enforce).  This is the predicate
the spec's words describe; claim C10 compares `validate_semver` against it. -/
def strictSemVer (s : String) : Bool :=
  semverCoreMatch s

/-! ## Backend commands, results, and events

One constructor per distinct `git` subprocess invocation the two scripts can
issue.  `CmdResult` is the subset of `subprocess.CompletedProcess` the
scripts inspect (`returncode`, `stdout`, `stderr`). -/

/-- The `git` commands the scripts issue. -/
inductive Cmd where
  | checkout (branch : String) (createNew : Bool)
  | status
  | stashPush (label : String)
  | resetHard
  | cleanFd
  | commit
  | revParseHead
  | revParseInside
  | verifyTag (tag : String)
  | fetch (remote branch : String)
  | pull (remote branch : String)
  | push (remote branch : String)
  | tagCreate (tag msg : String)
  | tagDelete (tag : String)
  | pushTag (remote tag : String)
  | pushDeleteTag (remote tag : String)
  deriving Repr, DecidableEq

/-- What the scripts read back from a subprocess invocation. -/
structure CmdResult where
  returncode : Nat
  stdout : String
  stderr : String
  deriving Repr, DecidableEq

/-- Trace events of a `safe_checkout` run: a backend command together with
its result, the display of the changed-files list (lines 120–123), and the
append of that list to `.gitignore` (lines 173–178). -/
inductive Event where
  | ran (c : Cmd) (r : CmdResult)
  | displayFiles (files : List String)
  | gitignoreAppend (files : List String)
  deriving Repr, DecidableEq

/-- The possible results of `safe_checkout`: return value `True`, return
value `"skip_checkout"`, a `sys.exit(code)`, or exhaustion of the modelled
inputs/responses (an uncaught `EOFError` in Python). -/
inductive SCOutcome where
  | ok
  | skipCheckout
  | exited (code : Nat)
  | eof
  deriving Repr, DecidableEq

/-! ## `git_check_in.py`: parsing helpers -/

/-- The two diagnostic substrings that classify a failed checkout as
"blocked by uncommitted changes" (git_check_in.py line 111). -/
def dirtyWorktreeMsg (stderr : String) : Bool :=
  substrB "would be overwritten".data stderr.data ||
  substrB "Please commit your changes or stash them".data stderr.data

/-- Embeds the parsing loop of `list_changed_files` (lines 64–74): for each
porcelain line, `status = line[0:2]`, `path = line[3:]`; a line whose status
contains `D` is skipped. -/
def changedFilesOf (stdout : String) : List String :=
  (splitlines stdout).filterMap fun l =>
    if (l.take 2).contains 'D' then none
    else some (String.mk (l.drop 3))

/-- The fixed stash label of line 142. -/
def stashLabel : String := "Auto-stash by check-in script"

/-- The events the blocked-checkout banner emits: lines 120–123 print the
changed-files list only when it is non-empty. -/
def displayEvents (changed : List String) : List Event :=
  if changed.isEmpty then [] else [Event.displayFiles changed]

/-! ## `git_check_in.py`: the recovery menu loop

`menuLoop` embeds the `while True` loop of `safe_checkout` (lines 131–204).
Its parameters are the original checkout command `cmd`, the changed-files
list `changed` computed at line 114 (a local variable, i.e. cached for the
whole episode), the remaining operator inputs and the remaining backend
responses. -/

def menuLoop (cmd : Cmd) (changed : List String) :
    List String → List CmdResult → SCOutcome × List Event
  | [], _ => (SCOutcome.eof, [])
  | inp :: inputs, resps =>
    let choice := strip inp
    if choice == "1" then
      -- line 134: return "skip_checkout"
      (SCOutcome.skipCheckout, [])
    else if choice == "2" then
      -- lines 139–163: stash push, then retry the checkout once
      match resps with
      | [] => (SCOutcome.eof, [])
      | sr :: resps₁ =>
        if sr.returncode == 0 then
          match resps₁ with
          | [] => (SCOutcome.eof, [Event.ran (Cmd.stashPush stashLabel) sr])
          | rr :: _ =>
            if rr.returncode == 0 then
              (SCOutcome.ok,
               [Event.ran (Cmd.stashPush stashLabel) sr, Event.ran cmd rr])
            else
              (SCOutcome.exited 1,
               [Event.ran (Cmd.stashPush stashLabel) sr, Event.ran cmd rr])
        else
          -- lines 159–163: report, then re-enter the menu
          ((menuLoop cmd changed inputs resps₁).1,
           Event.ran (Cmd.stashPush stashLabel) sr ::
             (menuLoop cmd changed inputs resps₁).2)
    else if choice == "3" then
      -- lines 165–197: destructive discard behind a "YES" confirmation
      match inputs with
      | [] => (SCOutcome.eof, [])
      | confirmInp :: inputs₁ =>
        if strip confirmInp == "YES" then
          match inputs₁ with
          | [] => (SCOutcome.eof, [])
          | aiInp :: _ =>
            let pre :=
              if lowerAscii (strip aiInp) == "y" && !changed.isEmpty then
                [Event.gitignoreAppend changed]
              else []
            match resps with
            | [] => (SCOutcome.eof, pre)
            | r₁ :: resps₁ =>
              match resps₁ with
              | [] => (SCOutcome.eof, pre ++ [Event.ran Cmd.resetHard r₁])
              | r₂ :: resps₂ =>
                match resps₂ with
                | [] =>
                  (SCOutcome.eof,
                   pre ++ [Event.ran Cmd.resetHard r₁, Event.ran Cmd.cleanFd r₂])
                | rr :: _ =>
                  if rr.returncode == 0 then
                    (SCOutcome.ok,
                     pre ++ [Event.ran Cmd.resetHard r₁, Event.ran Cmd.cleanFd r₂,
                             Event.ran cmd rr])
                  else
                    (SCOutcome.exited 1,
                     pre ++ [Event.ran Cmd.resetHard r₁, Event.ran Cmd.cleanFd r₂,
                             Event.ran cmd rr])
        else
          -- line 195–197: confirmation failed, loop back to the menu
          menuLoop cmd changed inputs₁ resps
    else if choice == "4" then
      -- lines 199–201: abort, sys.exit(0)
      (SCOutcome.exited 0, [])
    else
      -- line 203–204: invalid choice, re-prompt
      menuLoop cmd changed inputs resps

/-- Embeds `safe_checkout` (lines 97–209).  The first response answers the
initial checkout command; when that checkout is blocked by a dirty worktree
the second response answers the `git status --porcelain` issued by
`list_changed_files`, and the menu loop consumes the rest. -/
def safe_checkout (branch : String) (createNew : Bool)
    (resps : List CmdResult) (inputs : List String) : SCOutcome × List Event :=
  let cmd := Cmd.checkout branch createNew
  match resps with
  | [] => (SCOutcome.eof, [])
  | r :: resps₁ =>
    if r.returncode == 0 then
      (SCOutcome.ok, [Event.ran cmd r])
    else if dirtyWorktreeMsg r.stderr then
      match resps₁ with
      | [] => (SCOutcome.eof, [Event.ran cmd r])
      | rs :: resps₂ =>
        if rs.returncode == 0 then
          -- lines 114–129: enumerate changed files, show menu, run the loop
          (((menuLoop cmd (changedFilesOf rs.stdout) inputs resps₂).1),
           Event.ran cmd r :: Event.ran Cmd.status rs ::
             (displayEvents (changedFilesOf rs.stdout) ++
              (menuLoop cmd (changedFilesOf rs.stdout) inputs resps₂).2))
        else
          -- `run` with check=True: sys.exit(result.returncode)
          (SCOutcome.exited rs.returncode,
           [Event.ran cmd r, Event.ran Cmd.status rs])
    else
      -- lines 206–209: any other failure, sys.exit(1)
      (SCOutcome.exited 1, [Event.ran cmd r])

/-! ## A semantic model of the working tree

`GitState` carries the parts of the repository the recovery loop can touch:
the checked-out branch, the porcelain entries of the dirty files (status
code, path), and the stash stack.  `applyEvent` interprets a trace event:
a command that reported a non-zero status leaves the state unchanged; a
successful command acts in the evident way. -/

structure GitState where
  branch : String
  dirty : List (String × String)
  stashes : List (String × List (String × String))
  deriving Repr, DecidableEq

/-- Effect of a *successful* backend command on the working tree.  Queries
and remote/tag operations leave the tree alone; `reset --hard HEAD` clears
the tracked modifications (untracked `??` entries survive), `clean -fd`
removes the untracked entries, and a stash push moves the dirty entries
onto the stash stack. -/
def applyCmd (st : GitState) : Cmd → GitState
  | Cmd.checkout b _ => { st with branch := b }
  | Cmd.stashPush label =>
      { st with dirty := [], stashes := (label, st.dirty) :: st.stashes }
  | Cmd.resetHard => { st with dirty := st.dirty.filter (fun e => e.1 == "??") }
  | Cmd.cleanFd => { st with dirty := st.dirty.filter (fun e => e.1 != "??") }
  | _ => st

/-- Interpret one trace event as a state transformation. -/
def applyEvent (st : GitState) : Event → GitState
  | Event.ran c r => if r.returncode == 0 then applyCmd st c else st
  | _ => st

/-- Interpret a whole trace. -/
def applyTrace (st : GitState) (t : List Event) : GitState :=
  t.foldl applyEvent st

/-- Commands of the classes claim C1 enumerates: stash, reset (with its
companion clean) and commit. -/
def stashResetOrCommit : Cmd → Bool
  | Cmd.stashPush _ => true
  | Cmd.resetHard => true
  | Cmd.cleanFd => true
  | Cmd.commit => true
  | _ => false

/-- Commands that can mutate the working tree (as opposed to queries). -/
def treeMutating : Cmd → Bool
  | Cmd.checkout _ _ => true
  | Cmd.stashPush _ => true
  | Cmd.resetHard => true
  | Cmd.cleanFd => true
  | Cmd.commit => true
  | Cmd.pull _ _ => true
  | _ => false

/-- An event that consumes or presents the changed-files list: the display
of lines 120–123 or the `.gitignore` append of lines 173–178. -/
def usesFilesList : Event → Bool
  | Event.displayFiles _ => true
  | Event.gitignoreAppend _ => true
  | _ => false

/-- A successfully executed stash or discard command — the two tree
mutations available inside one blocked-checkout episode. -/
def successfulStashOrDiscard : Event → Bool
  | Event.ran (Cmd.stashPush _) r => r.returncode == 0
  | Event.ran Cmd.resetHard r => r.returncode == 0
  | Event.ran Cmd.cleanFd r => r.returncode == 0
  | _ => false

/-- No event that uses the changed-files list occurs after a successful
stash or discard anywhere in the trace. -/
def noUseAfterMut : List Event → Bool
  | [] => true
  | e :: t =>
    (!(successfulStashOrDiscard e) || t.all (fun x => !(usesFilesList x))) &&
      noUseAfterMut t

/-- Every display/`.gitignore` use of the changed-files list in the trace
carries exactly the list `fs`. -/
def usePayloadsEq (fs : List String) (t : List Event) : Bool :=
  t.all fun e =>
    match e with
    | Event.displayFiles g => g == fs
    | Event.gitignoreAppend g => g == fs
    | _ => true

/-! ## Concrete fixtures, shared by the witness theorems below -/

/-- A checkout blocked by uncommitted changes (the first diagnostic class). -/
def exBlockedResult : CmdResult :=
  ⟨1, "",
   "error: Your local changes to the following files would be overwritten by checkout:"⟩

/-- A porcelain status listing one modified and one untracked file. -/
def exStatusResult : CmdResult := ⟨0, "M  a.txt\n?? b.txt\n", ""⟩

/-- A successful command. -/
def exOkResult : CmdResult := ⟨0, "", ""⟩

/-- A failed command whose diagnostic is not a dirty-worktree message. -/
def exFailResult : CmdResult := ⟨1, "", "stash failed"⟩

/-- A working tree matching `exStatusResult`. -/
def exState : GitState :=
  ⟨"feature/x", [("M ", "a.txt"), ("??", "b.txt")], []⟩

/-! ## C1: operator abort leaves the tree untouched -/

/-- An event that issues a stash, reset/clean, or commit command. -/
def issuesStashResetOrCommit : Event → Bool
  | Event.ran c _ => stashResetOrCommit c
  | _ => false

/-! ## C3: non-dirty checkout failures exit with status 1, not the
backend's status -/

/-- A fatal checkout failure whose backend status is 2, with a diagnostic
matching neither dirty-worktree substring. -/
def exFatalResult : CmdResult := ⟨2, "", "fatal: invalid reference: nosuchbranch"⟩

/-! ## C4: the stash strategy -/

/-- An event that issues a (retry of the) checkout command. -/
def retriesCheckout : Event → Bool
  | Event.ran (Cmd.checkout _ _) _ => true
  | _ => false

/-! ## Discard events and the confirmation gate (for C6) -/

/-- An event that issues one of the two discard commands
(`git reset --hard HEAD` or `git clean -fd`). -/
def issuesDiscard : Event → Bool
  | Event.ran Cmd.resetHard _ => true
  | Event.ran Cmd.cleanFd _ => true
  | _ => false

/-! ## C2: the `atexit` cleanup handler

`cleanup_and_return_to_develop` (git_check_in.py lines 9–29) queries the
current branch, checks out `develop` when not already on it, and pulls
`origin/develop`; all its subprocess calls use `check=False` and the whole
body is wrapped in a bare `except`, so the handler always runs to its end.
Line 32 registers it with `atexit.register` at import time, before `main`
runs.  `terminateProcess` models CPython shutdown for this script: every
termination — falling off the end of `main`, or any `sys.exit(code)` raised
from it — runs the registered handlers after the script's own commands and
then exits with the declared code (the script never uses `os._exit`). -/

/-- The commands the exit handler issues, as a function of the branch the
repository is on when the process terminates. -/
def cleanup_and_return_to_develop (currentBranch : String) : List Cmd :=
  Cmd.revParseHead ::
    ((if currentBranch == "develop" then [] else [Cmd.checkout "develop" false]) ++
     [Cmd.pull "origin" "develop"])

/-- The four ways the check-in script terminates: the normal end of `main`,
a fatal `sys.exit` with a non-zero code, the operator abort
(`sys.exit(0)` at line 201), and the no-changes early exit
(`sys.exit(0)` at line 364). -/
inductive Termination where
  | normalSuccess
  | fatalExit (code : Nat)
  | operatorAbort
  | noChangesEarly
  deriving Repr, DecidableEq

/-- The exit status the script declares for each termination. -/
def declaredExitCode : Termination → Nat
  | Termination.fatalExit code => code
  | _ => 0

/-- Process shutdown: the declared exit status, and the full command
sequence — the script's own commands followed by those of the registered
`atexit` handler, evaluated at the branch current at exit time. -/
def terminateProcess (t : Termination) (scriptCmds : List Cmd)
    (branchAtExit : String) : Nat × List Cmd :=
  (declaredExitCode t, scriptCmds ++ cleanup_and_return_to_develop branchAtExit)

/-! ## C7: the release-tag tool `git_check_in1.py`

The tool's backend touchpoints are modelled by `TagState`: whether the
process is inside a work tree, the current branch, the porcelain status
output, and the local/remote tag lists.  Commands that can fail only for
reasons outside this state (`fetch`, `pull`, `push`) are modelled as
succeeding; `git rev-parse --is-inside-work-tree` returns 128 outside a
repository. -/

structure TagState where
  insideRepo : Bool
  branch : String
  statusOut : String
  localTags : List String
  remoteTags : List String
  deriving Repr, DecidableEq

/-- Embeds `tag_exists` (git_check_in1.py lines 36–38):
`git rev-parse -q --verify refs/tags/<tag>` succeeds exactly when the tag
exists locally. -/
def tag_exists (tag : String) (st : TagState) : Bool :=
  st.localTags.contains tag

/-- Embeds the guard of `ensure_clean_worktree` (lines 27–30): the check
passes exactly when the stripped porcelain output is empty. -/
def ensure_clean_worktree (st : TagState) : Bool :=
  strip st.statusOut == ""

/-- The arguments of the tool's `argparse` interface with their defaults
(lines 46–53). -/
structure RelArgs where
  version : String
  remote : String := "origin"
  develop : String := "develop"
  tagPrefix : String := "v"
  message : Option String := none
  force : Bool := false
  deriving Repr, DecidableEq

/-- Result of a run of the release tool: reached the final `print` at
line 86, or terminated through `sys.exit`. -/
inductive RelOutcome where
  | okDone
  | exited (code : Nat)
  deriving Repr, DecidableEq

/-- Embeds `main` of git_check_in1.py (lines 45–86): SemVer validation, the
inside-a-repo check, the develop-branch guard, the clean-worktree guard,
fetch and pull, then tag creation — refusing an existing tag without
`--force`, and deleting it locally and remotely before recreating it with
`--force`.  `sys.exit(message)` exits with status 1. -/
def relMain (a : RelArgs) (st : TagState) : RelOutcome × TagState × List Cmd :=
  if validate_semver a.version = false then (RelOutcome.exited 1, st, [])
  else
    let tag := a.tagPrefix ++ a.version
    let msg := match a.message with
      | some m => m
      | none => "Release " ++ tag
    if st.insideRepo = false then
      (RelOutcome.exited 128, st, [Cmd.revParseInside])
    else if (st.branch == a.develop) = false then
      (RelOutcome.exited 1, st, [Cmd.revParseInside, Cmd.revParseHead])
    else if ensure_clean_worktree st = false then
      (RelOutcome.exited 1, st, [Cmd.revParseInside, Cmd.revParseHead, Cmd.status])
    else
      let pre := [Cmd.revParseInside, Cmd.revParseHead, Cmd.status,
                  Cmd.fetch a.remote a.develop, Cmd.pull a.remote a.develop,
                  Cmd.verifyTag tag]
      if tag_exists tag st then
        if a.force = false then (RelOutcome.exited 1, st, pre)
        else
          (RelOutcome.okDone,
           { st with localTags := tag :: st.localTags.erase tag,
                     remoteTags := tag :: st.remoteTags.erase tag },
           pre ++ [Cmd.tagDelete tag, Cmd.pushDeleteTag a.remote tag,
                   Cmd.tagCreate tag msg, Cmd.pushTag a.remote tag])
      else
        (RelOutcome.okDone,
         { st with localTags := tag :: st.localTags,
                   remoteTags := tag :: st.remoteTags },
         pre ++ [Cmd.tagCreate tag msg, Cmd.pushTag a.remote tag])

/-- A command that creates, deletes, or pushes a tag. -/
def tagMutating : Cmd → Bool
  | Cmd.tagCreate _ _ => true
  | Cmd.tagDelete _ => true
  | Cmd.pushTag _ _ => true
  | Cmd.pushDeleteTag _ _ => true
  | _ => false

/-- `--version 1.2.3` with all defaults. -/
def relArgsV123 : RelArgs := { version := "1.2.3" }

/-- `--version 1.2.3 --force` with all other defaults. -/
def relArgsV123Force : RelArgs := { version := "1.2.3", force := true }

/-- A fresh repository state for the release tool: inside a repo, on
`develop`, clean, no tags anywhere. -/
def exTagState : TagState := ⟨true, "develop", "", [], []⟩

/-- **C9**: `validate_semver` accepts `"1.2.3"` and `"0.0.0"` and rejects
`"1.2"`, `"v1.2.3"`, `"1.2.3-rc1"` and `"01.2.3"`. -/
theorem validate_semver_examples :
    validate_semver "1.2.3" = true ∧
    validate_semver "0.0.0" = true ∧
    validate_semver "1.2" = false ∧
    validate_semver "v1.2.3" = false ∧
    validate_semver "1.2.3-rc1" = false ∧
    validate_semver "01.2.3" = false := by
  decide

/-- **C10**: `validate_semver` is not exact over strict `MAJOR.MINOR.PATCH`
strings: because the pattern is checked with `re.match` and a `$` anchor
rather than `\Z`, the non-SemVer input `"1.2.3\n"` (a valid version followed
by a single trailing newline) is accepted. -/
theorem validate_semver_accepts_trailing_newline :
    validate_semver "1.2.3\n" = true ∧ strictSemVer "1.2.3\n" = false := by
  decide

/-! ## Step equations for the menu loop

One lemma per branch of the `while True` loop, so that later proofs never
have to unfold the recursive definition again.  The hypotheses are the
boolean comparisons the loop performs on the (stripped) operator input. -/

set_option maxHeartbeats 4000000 in
theorem menuLoop_invalid_choice (cmd : Cmd) (changed : List String)
    (inp : String) (inputs : List String) (resps : List CmdResult)
    (h1 : (strip inp == "1") = false) (h2 : (strip inp == "2") = false)
    (h3 : (strip inp == "3") = false) (h4 : (strip inp == "4") = false) :
    menuLoop cmd changed (inp :: inputs) resps =
      menuLoop cmd changed inputs resps := by
  generalize hk : menuLoop cmd changed inputs resps = k
  unfold menuLoop
  simp only [h1, h2, h3, h4, Bool.false_eq_true, if_false]
  rw [hk]

set_option maxHeartbeats 4000000 in
theorem menuLoop_choice1 (cmd : Cmd) (changed : List String)
    (inp : String) (inputs : List String) (resps : List CmdResult)
    (h1 : (strip inp == "1") = true) :
    menuLoop cmd changed (inp :: inputs) resps =
      (SCOutcome.skipCheckout, []) := by
  unfold menuLoop
  simp only [h1, if_true]

set_option maxHeartbeats 4000000 in
theorem menuLoop_choice4 (cmd : Cmd) (changed : List String)
    (inp : String) (inputs : List String) (resps : List CmdResult)
    (h1 : (strip inp == "1") = false) (h2 : (strip inp == "2") = false)
    (h3 : (strip inp == "3") = false) (h4 : (strip inp == "4") = true) :
    menuLoop cmd changed (inp :: inputs) resps =
      (SCOutcome.exited 0, []) := by
  unfold menuLoop
  simp only [h1, h2, h3, h4, Bool.false_eq_true, if_false, if_true]

set_option maxHeartbeats 4000000 in
theorem menuLoop_choice2 (cmd : Cmd) (changed : List String)
    (inp : String) (inputs : List String)
    (sr rr : CmdResult) (resps : List CmdResult)
    (h1 : (strip inp == "1") = false) (h2 : (strip inp == "2") = true) :
    menuLoop cmd changed (inp :: inputs) (sr :: rr :: resps) =
      if sr.returncode == 0 then
        if rr.returncode == 0 then
          (SCOutcome.ok,
           [Event.ran (Cmd.stashPush stashLabel) sr, Event.ran cmd rr])
        else
          (SCOutcome.exited 1,
           [Event.ran (Cmd.stashPush stashLabel) sr, Event.ran cmd rr])
      else
        ((menuLoop cmd changed inputs (rr :: resps)).1,
         Event.ran (Cmd.stashPush stashLabel) sr ::
           (menuLoop cmd changed inputs (rr :: resps)).2) := by
  generalize hk : menuLoop cmd changed inputs (rr :: resps) = k
  unfold menuLoop
  simp only [h1, h2, Bool.false_eq_true, if_false, if_true]
  rw [hk]

set_option maxHeartbeats 4000000 in
theorem menuLoop_choice3_not_confirmed (cmd : Cmd) (changed : List String)
    (inp confirmInp : String) (inputs : List String) (resps : List CmdResult)
    (h1 : (strip inp == "1") = false) (h2 : (strip inp == "2") = false)
    (h3 : (strip inp == "3") = true)
    (hc : (strip confirmInp == "YES") = false) :
    menuLoop cmd changed (inp :: confirmInp :: inputs) resps =
      menuLoop cmd changed inputs resps := by
  generalize hk : menuLoop cmd changed inputs resps = k
  unfold menuLoop
  simp only [h1, h2, h3, hc, Bool.false_eq_true, if_false, if_true]
  rw [hk]

set_option maxHeartbeats 4000000 in
theorem menuLoop_choice3_confirmed (cmd : Cmd) (changed : List String)
    (inp confirmInp aiInp : String) (inputs : List String)
    (r₁ r₂ rr : CmdResult) (resps : List CmdResult)
    (h1 : (strip inp == "1") = false) (h2 : (strip inp == "2") = false)
    (h3 : (strip inp == "3") = true)
    (hc : (strip confirmInp == "YES") = true) :
    menuLoop cmd changed (inp :: confirmInp :: aiInp :: inputs)
        (r₁ :: r₂ :: rr :: resps) =
      ((if rr.returncode == 0 then SCOutcome.ok else SCOutcome.exited 1),
       (if lowerAscii (strip aiInp) == "y" && !changed.isEmpty then
          [Event.gitignoreAppend changed]
        else []) ++
         [Event.ran Cmd.resetHard r₁, Event.ran Cmd.cleanFd r₂,
          Event.ran cmd rr]) := by
  unfold menuLoop
  simp only [h1, h2, h3, hc, Bool.false_eq_true, if_false, if_true]
  by_cases hr : (rr.returncode == 0) = true
  · simp only [hr, if_true]
  · simp only [hr, if_false, Bool.not_eq_true] at *
    simp only [hr, Bool.false_eq_true, if_false]

/-! ## Shape lemmas for `safe_checkout` -/

theorem safe_checkout_success (b : String) (cn : Bool) (r : CmdResult)
    (resps : List CmdResult) (inputs : List String)
    (h : (r.returncode == 0) = true) :
    safe_checkout b cn (r :: resps) inputs =
      (SCOutcome.ok, [Event.ran (Cmd.checkout b cn) r]) := by
  unfold safe_checkout
  simp only [h, if_true]

theorem safe_checkout_blocked (b : String) (cn : Bool) (r rs : CmdResult)
    (resps : List CmdResult) (inputs : List String)
    (h0 : (r.returncode == 0) = false) (hd : dirtyWorktreeMsg r.stderr = true)
    (h1 : (rs.returncode == 0) = true) :
    safe_checkout b cn (r :: rs :: resps) inputs =
      ((menuLoop (Cmd.checkout b cn) (changedFilesOf rs.stdout) inputs resps).1,
       Event.ran (Cmd.checkout b cn) r :: Event.ran Cmd.status rs ::
         (displayEvents (changedFilesOf rs.stdout) ++
          (menuLoop (Cmd.checkout b cn) (changedFilesOf rs.stdout) inputs resps).2)) := by
  unfold safe_checkout
  simp only [h0, hd, h1, Bool.false_eq_true, if_false, if_true]

theorem safe_checkout_other_failure (b : String) (cn : Bool) (r : CmdResult)
    (resps : List CmdResult) (inputs : List String)
    (h0 : (r.returncode == 0) = false) (hd : dirtyWorktreeMsg r.stderr = false) :
    safe_checkout b cn (r :: resps) inputs =
      (SCOutcome.exited 1, [Event.ran (Cmd.checkout b cn) r]) := by
  unfold safe_checkout
  simp only [h0, hd, Bool.false_eq_true, if_false]

/-- **C1**: for every invocation of `safe_checkout` blocked by a dirty
worktree, if the operator selects the abort option (choice 4), `sys.exit(0)`
is reached, the working tree is exactly as it was before the attempt (the
fold of the trace is the identity), and no stash, reset/clean, or commit
command is issued. -/
theorem safe_checkout_abort (b : String) (cn : Bool) (r0 r1 : CmdResult)
    (resps : List CmdResult) (inp : String) (rest : List String) (st : GitState)
    (h0 : (r0.returncode == 0) = false) (hd : dirtyWorktreeMsg r0.stderr = true)
    (h1 : (r1.returncode == 0) = true) (hinp : strip inp = "4") :
    (safe_checkout b cn (r0 :: r1 :: resps) (inp :: rest)).1 = SCOutcome.exited 0 ∧
    applyTrace st (safe_checkout b cn (r0 :: r1 :: resps) (inp :: rest)).2 = st ∧
    (safe_checkout b cn (r0 :: r1 :: resps) (inp :: rest)).2.all
      (fun e => !(issuesStashResetOrCommit e)) = true := by
  have e1 : (strip inp == "1") = false := by rw [hinp]; decide
  have e2 : (strip inp == "2") = false := by rw [hinp]; decide
  have e3 : (strip inp == "3") = false := by rw [hinp]; decide
  have e4 : (strip inp == "4") = true := by rw [hinp]; decide
  rw [safe_checkout_blocked b cn r0 r1 resps (inp :: rest) h0 hd h1,
      menuLoop_choice4 _ _ _ _ _ e1 e2 e3 e4]
  refine ⟨rfl, ?_, ?_⟩
  · simp only [applyTrace, displayEvents]
    by_cases hemp : (changedFilesOf r1.stdout).isEmpty
    · simp [hemp, applyEvent, applyCmd, h0, h1, beq_iff_eq.mp h1]
    · simp [hemp, applyEvent, applyCmd, h0, h1, beq_iff_eq.mp h1]
  · simp only [displayEvents]
    by_cases hemp : (changedFilesOf r1.stdout).isEmpty
    · simp [hemp, issuesStashResetOrCommit, stashResetOrCommit]
    · simp [hemp, issuesStashResetOrCommit, stashResetOrCommit]

/-- Witness for `safe_checkout_abort` at a concrete blocked run. -/
theorem safe_checkout_abort_witness :
    ((exBlockedResult.returncode == 0) = false ∧
     dirtyWorktreeMsg exBlockedResult.stderr = true ∧
     (exStatusResult.returncode == 0) = true ∧ strip "4" = "4") ∧
    ((safe_checkout "develop" false [exBlockedResult, exStatusResult] ["4"]).1 =
       SCOutcome.exited 0 ∧
     applyTrace exState
       (safe_checkout "develop" false [exBlockedResult, exStatusResult] ["4"]).2 =
       exState ∧
     (safe_checkout "develop" false [exBlockedResult, exStatusResult] ["4"]).2.all
       (fun e => !(issuesStashResetOrCommit e)) = true) :=
  ⟨⟨by decide, by decide, by decide, by decide⟩,
   safe_checkout_abort "develop" false exBlockedResult exStatusResult [] "4" [] exState
     (by decide) (by decide) (by decide) (by decide)⟩

/-- **C3 counterexample**: for a checkout failure with backend status 2 and a
non-dirty diagnostic, the process exits with status 1, which is *not* the
backend's status — `sys.exit(1)` at line 209 does not mirror
`result.returncode`. -/
theorem safe_checkout_fatal_counterexample :
    (safe_checkout "nosuchbranch" false [exFatalResult] []).1 = SCOutcome.exited 1 ∧
    exFatalResult.returncode = 2 ∧
    (safe_checkout "nosuchbranch" false [exFatalResult] []).1 ≠
      SCOutcome.exited exFatalResult.returncode := by
  decide

/-- Witness for `safe_checkout_other_failure` (the amended C3) at a concrete
fatal failure. -/
theorem safe_checkout_fatal_exit_witness :
    ((exFatalResult.returncode == 0) = false ∧
     dirtyWorktreeMsg exFatalResult.stderr = false) ∧
    safe_checkout "nosuchbranch" false [exFatalResult] [] =
      (SCOutcome.exited 1,
       [Event.ran (Cmd.checkout "nosuchbranch" false) exFatalResult]) :=
  ⟨⟨by decide, by decide⟩,
   safe_checkout_other_failure "nosuchbranch" false exFatalResult [] []
     (by decide) (by decide)⟩

/-- **C4**: in the blocked state, selecting the stash strategy issues a
stash-push with the fixed label `"Auto-stash by check-in script"`; if the
stash succeeds the checkout is retried exactly once (the countP conjunct),
with success returning `True` and failure terminating via `sys.exit(1)`; if
the stash-push fails, the loop continues with the remaining operator inputs
(re-presenting the four choices) instead of aborting. -/
theorem stash_strategy (b : String) (cn : Bool) (changed : List String)
    (sr rr : CmdResult) (resps : List CmdResult) (inputs : List String) :
    menuLoop (Cmd.checkout b cn) changed ("2" :: inputs) (sr :: rr :: resps) =
      (if sr.returncode == 0 then
         if rr.returncode == 0 then
           (SCOutcome.ok,
            [Event.ran (Cmd.stashPush stashLabel) sr,
             Event.ran (Cmd.checkout b cn) rr])
         else
           (SCOutcome.exited 1,
            [Event.ran (Cmd.stashPush stashLabel) sr,
             Event.ran (Cmd.checkout b cn) rr])
       else
         ((menuLoop (Cmd.checkout b cn) changed inputs (rr :: resps)).1,
          Event.ran (Cmd.stashPush stashLabel) sr ::
            (menuLoop (Cmd.checkout b cn) changed inputs (rr :: resps)).2)) ∧
    ((sr.returncode == 0) = true →
      (menuLoop (Cmd.checkout b cn) changed ("2" :: inputs)
          (sr :: rr :: resps)).2.countP retriesCheckout = 1) := by
  have h1 : (strip "2" == "1") = false := by decide
  have h2 : (strip "2" == "2") = true := by decide
  refine ⟨menuLoop_choice2 _ _ _ _ _ _ _ h1 h2, ?_⟩
  intro hs
  rw [menuLoop_choice2 _ _ _ _ _ _ _ h1 h2]
  simp only [hs, if_true]
  by_cases hr : (rr.returncode == 0) = true
  · simp [hr, retriesCheckout]
  · simp [hr, retriesCheckout]

/-- Witness for `stash_strategy`: a successful stash followed by a
successful retry contains exactly one retry of the checkout. -/
theorem stash_strategy_witness :
    (exOkResult.returncode == 0) = true ∧
    (menuLoop (Cmd.checkout "develop" false) ["a.txt"] ["2"]
        [exOkResult, exOkResult]).2.countP retriesCheckout = 1 :=
  ⟨by decide,
   (stash_strategy "develop" false ["a.txt"] exOkResult exOkResult [] []).2
     (by decide)⟩

/-! ## C8: commit-in-place short-circuits -/

/-- Invalid menu entries are consumed without any state change or command. -/
theorem menuLoop_drop_invalid (cmd : Cmd) (changed : List String)
    (pre inputs : List String) (resps : List CmdResult)
    (hpre : ∀ p ∈ pre,
      (strip p == "1") = false ∧ (strip p == "2") = false ∧
      (strip p == "3") = false ∧ (strip p == "4") = false) :
    menuLoop cmd changed (pre ++ inputs) resps =
      menuLoop cmd changed inputs resps := by
  induction pre with
  | nil => rfl
  | cons p pre ih =>
    have hp := hpre p (List.mem_cons_self p pre)
    rw [List.cons_append,
        menuLoop_invalid_choice _ _ _ _ _ hp.1 hp.2.1 hp.2.2.1 hp.2.2.2]
    exact ih fun q hq => hpre q (List.mem_cons_of_mem p hq)

/-- **C8**: for every blocked checkout, once the operator selects
commit-in-place (choice 1, possibly after invalid menu entries),
`safe_checkout` returns `"skip_checkout"` immediately, and the whole trace
consists of the initial (failed) checkout attempt, the porcelain status
query of the files enumeration, and the display of the list — no further
checkout, stash, or discard command is issued, whatever the list of changed
files is. -/
theorem commit_in_place_skips (b : String) (cn : Bool) (r0 r1 : CmdResult)
    (resps : List CmdResult) (pre rest : List String)
    (h0 : (r0.returncode == 0) = false) (hd : dirtyWorktreeMsg r0.stderr = true)
    (h1 : (r1.returncode == 0) = true)
    (hpre : ∀ p ∈ pre,
      (strip p == "1") = false ∧ (strip p == "2") = false ∧
      (strip p == "3") = false ∧ (strip p == "4") = false) :
    safe_checkout b cn (r0 :: r1 :: resps) (pre ++ "1" :: rest) =
      (SCOutcome.skipCheckout,
       Event.ran (Cmd.checkout b cn) r0 :: Event.ran Cmd.status r1 ::
         displayEvents (changedFilesOf r1.stdout)) := by
  rw [safe_checkout_blocked b cn r0 r1 resps (pre ++ "1" :: rest) h0 hd h1,
      menuLoop_drop_invalid _ _ _ _ _ hpre,
      menuLoop_choice1 _ _ _ _ _ (by decide)]
  simp

/-- Witness for `commit_in_place_skips`: one invalid entry, then choice 1. -/
theorem commit_in_place_skips_witness :
    ((exBlockedResult.returncode == 0) = false ∧
     dirtyWorktreeMsg exBlockedResult.stderr = true ∧
     (exStatusResult.returncode == 0) = true ∧
     (∀ p ∈ ["5"],
       (strip p == "1") = false ∧ (strip p == "2") = false ∧
       (strip p == "3") = false ∧ (strip p == "4") = false)) ∧
    safe_checkout "develop" false [exBlockedResult, exStatusResult]
        (["5"] ++ "1" :: []) =
      (SCOutcome.skipCheckout,
       Event.ran (Cmd.checkout "develop" false) exBlockedResult ::
         Event.ran Cmd.status exStatusResult ::
           displayEvents (changedFilesOf exStatusResult.stdout)) :=
  ⟨⟨by decide, by decide, by decide, by decide⟩,
   commit_in_place_skips "develop" false exBlockedResult exStatusResult [] ["5"] []
     (by decide) (by decide) (by decide) (by decide)⟩

/-! ## Step equations for the remaining loop shapes

These cover the branches where the modelled inputs or responses run out
(`eof` outcomes); the inductive trace lemmas below need the value of the
loop at every shape. -/

theorem menuLoop_nil (cmd : Cmd) (changed : List String)
    (resps : List CmdResult) :
    menuLoop cmd changed [] resps = (SCOutcome.eof, []) := by
  unfold menuLoop
  rfl

set_option maxHeartbeats 4000000 in
theorem menuLoop_choice2_noresp (cmd : Cmd) (changed : List String)
    (inp : String) (inputs : List String)
    (h1 : (strip inp == "1") = false) (h2 : (strip inp == "2") = true) :
    menuLoop cmd changed (inp :: inputs) [] = (SCOutcome.eof, []) := by
  unfold menuLoop
  simp only [h1, h2, Bool.false_eq_true, if_false, if_true]

set_option maxHeartbeats 4000000 in
theorem menuLoop_choice2_stash_ok_noresp (cmd : Cmd) (changed : List String)
    (inp : String) (inputs : List String) (sr : CmdResult)
    (h1 : (strip inp == "1") = false) (h2 : (strip inp == "2") = true)
    (hs : (sr.returncode == 0) = true) :
    menuLoop cmd changed (inp :: inputs) [sr] =
      (SCOutcome.eof, [Event.ran (Cmd.stashPush stashLabel) sr]) := by
  unfold menuLoop
  simp only [h1, h2, hs, Bool.false_eq_true, if_false, if_true]

set_option maxHeartbeats 4000000 in
theorem menuLoop_choice2_stash_fail (cmd : Cmd) (changed : List String)
    (inp : String) (inputs : List String) (sr : CmdResult)
    (resps : List CmdResult)
    (h1 : (strip inp == "1") = false) (h2 : (strip inp == "2") = true)
    (hs : (sr.returncode == 0) = false) :
    menuLoop cmd changed (inp :: inputs) (sr :: resps) =
      ((menuLoop cmd changed inputs resps).1,
       Event.ran (Cmd.stashPush stashLabel) sr ::
         (menuLoop cmd changed inputs resps).2) := by
  generalize hk : menuLoop cmd changed inputs resps = k
  unfold menuLoop
  simp only [h1, h2, hs, Bool.false_eq_true, if_false, if_true]
  cases resps with
  | nil => rw [hk]
  | cons r rest => rw [hk]

set_option maxHeartbeats 4000000 in
theorem menuLoop_choice3_noconfirm (cmd : Cmd) (changed : List String)
    (inp : String) (resps : List CmdResult)
    (h1 : (strip inp == "1") = false) (h2 : (strip inp == "2") = false)
    (h3 : (strip inp == "3") = true) :
    menuLoop cmd changed [inp] resps = (SCOutcome.eof, []) := by
  unfold menuLoop
  simp only [h1, h2, h3, Bool.false_eq_true, if_false, if_true]

set_option maxHeartbeats 4000000 in
theorem menuLoop_choice3_yes_noai (cmd : Cmd) (changed : List String)
    (inp confirmInp : String) (resps : List CmdResult)
    (h1 : (strip inp == "1") = false) (h2 : (strip inp == "2") = false)
    (h3 : (strip inp == "3") = true)
    (hc : (strip confirmInp == "YES") = true) :
    menuLoop cmd changed [inp, confirmInp] resps = (SCOutcome.eof, []) := by
  unfold menuLoop
  simp only [h1, h2, h3, hc, Bool.false_eq_true, if_false, if_true]

set_option maxHeartbeats 4000000 in
theorem menuLoop_choice3_yes_noresp (cmd : Cmd) (changed : List String)
    (inp confirmInp aiInp : String) (inputs : List String)
    (h1 : (strip inp == "1") = false) (h2 : (strip inp == "2") = false)
    (h3 : (strip inp == "3") = true)
    (hc : (strip confirmInp == "YES") = true) :
    menuLoop cmd changed (inp :: confirmInp :: aiInp :: inputs) [] =
      (SCOutcome.eof,
       if lowerAscii (strip aiInp) == "y" && !changed.isEmpty then
         [Event.gitignoreAppend changed]
       else []) := by
  unfold menuLoop
  simp only [h1, h2, h3, hc, Bool.false_eq_true, if_false, if_true]

set_option maxHeartbeats 4000000 in
theorem menuLoop_choice3_yes_oneresp (cmd : Cmd) (changed : List String)
    (inp confirmInp aiInp : String) (inputs : List String) (r₁ : CmdResult)
    (h1 : (strip inp == "1") = false) (h2 : (strip inp == "2") = false)
    (h3 : (strip inp == "3") = true)
    (hc : (strip confirmInp == "YES") = true) :
    menuLoop cmd changed (inp :: confirmInp :: aiInp :: inputs) [r₁] =
      (SCOutcome.eof,
       (if lowerAscii (strip aiInp) == "y" && !changed.isEmpty then
          [Event.gitignoreAppend changed]
        else []) ++ [Event.ran Cmd.resetHard r₁]) := by
  unfold menuLoop
  simp only [h1, h2, h3, hc, Bool.false_eq_true, if_false, if_true]

set_option maxHeartbeats 4000000 in
theorem menuLoop_choice3_yes_tworesp (cmd : Cmd) (changed : List String)
    (inp confirmInp aiInp : String) (inputs : List String) (r₁ r₂ : CmdResult)
    (h1 : (strip inp == "1") = false) (h2 : (strip inp == "2") = false)
    (h3 : (strip inp == "3") = true)
    (hc : (strip confirmInp == "YES") = true) :
    menuLoop cmd changed (inp :: confirmInp :: aiInp :: inputs) [r₁, r₂] =
      (SCOutcome.eof,
       (if lowerAscii (strip aiInp) == "y" && !changed.isEmpty then
          [Event.gitignoreAppend changed]
        else []) ++
         [Event.ran Cmd.resetHard r₁, Event.ran Cmd.cleanFd r₂]) := by
  unfold menuLoop
  simp only [h1, h2, h3, hc, Bool.false_eq_true, if_false, if_true]

/-! ## Trace invariants of the menu loop (for C5) -/

set_option maxHeartbeats 4000000 in
theorem menuLoop_noUseAfterMut (cmd : Cmd) (changed : List String)
    (inputs : List String) (resps : List CmdResult) :
    noUseAfterMut (menuLoop cmd changed inputs resps).2 = true := by
  induction inputs, resps using menuLoop.induct cmd changed with
  | case1 resps => rw [menuLoop_nil]; rfl
  | case2 inp inputs resps choice h1 =>
    rw [menuLoop_choice1 _ _ _ _ _ (by exact h1)]; rfl
  | case3 inp inputs choice h1 h2 =>
    rw [menuLoop_choice2_noresp _ _ _ _ (by simpa using h1) (by exact h2)]; rfl
  | case4 inp inputs choice h1 h2 sr hs =>
    rw [menuLoop_choice2_stash_ok_noresp _ _ _ _ _ (by simpa using h1)
          (by exact h2) hs]
    simp [noUseAfterMut, successfulStashOrDiscard, usesFilesList]
  | case5 inp inputs choice h1 h2 sr hs rr tail hr =>
    rw [menuLoop_choice2 _ _ _ _ _ _ _ (by simpa using h1) (by exact h2)]
    simp [hs, hr, noUseAfterMut, successfulStashOrDiscard, usesFilesList]
  | case6 inp inputs choice h1 h2 sr hs rr tail hr =>
    rw [menuLoop_choice2 _ _ _ _ _ _ _ (by simpa using h1) (by exact h2)]
    simp only [Bool.not_eq_true] at hr
    simp [hs, hr, noUseAfterMut, successfulStashOrDiscard, usesFilesList]
  | case7 inp inputs choice h1 h2 sr tail hs ih =>
    simp only [Bool.not_eq_true] at hs
    rw [menuLoop_choice2_stash_fail _ _ _ _ _ _ (by simpa using h1)
          (by exact h2) hs]
    simp [noUseAfterMut, successfulStashOrDiscard, hs, ih]
  | case8 inp resps choice h1 h2 h3 =>
    rw [menuLoop_choice3_noconfirm _ _ _ _ (by simpa using h1)
          (by simpa using h2) (by exact h3)]
    rfl
  | case9 inp resps choice h1 h2 h3 confirmInp hc =>
    rw [menuLoop_choice3_yes_noai _ _ _ _ _ (by simpa using h1)
          (by simpa using h2) (by exact h3) hc]
    rfl
  | case10 inp choice h1 h2 h3 confirmInp hc aiInp tail =>
    rw [menuLoop_choice3_yes_noresp _ _ _ _ _ _ (by simpa using h1)
          (by simpa using h2) (by exact h3) hc]
    by_cases hai : (lowerAscii (strip aiInp) == "y" && !changed.isEmpty) = true <;>
      simp [hai, noUseAfterMut, successfulStashOrDiscard, usesFilesList]
  | case11 inp choice h1 h2 h3 confirmInp hc aiInp tail r₁ =>
    rw [menuLoop_choice3_yes_oneresp _ _ _ _ _ _ _ (by simpa using h1)
          (by simpa using h2) (by exact h3) hc]
    by_cases hai : (lowerAscii (strip aiInp) == "y" && !changed.isEmpty) = true <;>
      simp [hai, noUseAfterMut, successfulStashOrDiscard, usesFilesList]
  | case12 inp choice h1 h2 h3 confirmInp hc aiInp tail r₁ r₂ =>
    rw [menuLoop_choice3_yes_tworesp _ _ _ _ _ _ _ _ (by simpa using h1)
          (by simpa using h2) (by exact h3) hc]
    by_cases hai : (lowerAscii (strip aiInp) == "y" && !changed.isEmpty) = true <;>
      simp [hai, noUseAfterMut, successfulStashOrDiscard, usesFilesList]
  | case13 inp choice h1 h2 h3 confirmInp hc aiInp tail r₁ r₂ rr tail₁ hr =>
    rw [menuLoop_choice3_confirmed _ _ _ _ _ _ _ _ _ _ (by simpa using h1)
          (by simpa using h2) (by exact h3) hc]
    by_cases hai : (lowerAscii (strip aiInp) == "y" && !changed.isEmpty) = true <;>
      simp [hai, hr, noUseAfterMut, successfulStashOrDiscard, usesFilesList]
  | case14 inp choice h1 h2 h3 confirmInp hc aiInp tail r₁ r₂ rr tail₁ hr =>
    rw [menuLoop_choice3_confirmed _ _ _ _ _ _ _ _ _ _ (by simpa using h1)
          (by simpa using h2) (by exact h3) hc]
    by_cases hai : (lowerAscii (strip aiInp) == "y" && !changed.isEmpty) = true <;>
      simp [hai, hr, noUseAfterMut, successfulStashOrDiscard, usesFilesList]
  | case15 inp resps choice h1 h2 h3 confirmInp tail hc ih =>
    simp only [Bool.not_eq_true] at hc
    rw [menuLoop_choice3_not_confirmed _ _ _ _ _ _ (by simpa using h1)
          (by simpa using h2) (by exact h3) hc]
    exact ih
  | case16 inp inputs resps choice h1 h2 h3 h4 =>
    rw [menuLoop_choice4 _ _ _ _ _ (by simpa using h1) (by simpa using h2)
          (by simpa using h3) (by exact h4)]
    rfl
  | case17 inp inputs resps choice h1 h2 h3 h4 ih =>
    rw [menuLoop_invalid_choice _ _ _ _ _ (by simpa using h1) (by simpa using h2)
          (by simpa using h3) (by simpa using h4)]
    exact ih

set_option maxHeartbeats 4000000 in
theorem menuLoop_usePayloads (cmd : Cmd) (changed : List String)
    (inputs : List String) (resps : List CmdResult) :
    usePayloadsEq changed (menuLoop cmd changed inputs resps).2 = true := by
  induction inputs, resps using menuLoop.induct cmd changed with
  | case1 resps => rw [menuLoop_nil]; rfl
  | case2 inp inputs resps choice h1 =>
    rw [menuLoop_choice1 _ _ _ _ _ (by exact h1)]; rfl
  | case3 inp inputs choice h1 h2 =>
    rw [menuLoop_choice2_noresp _ _ _ _ (by simpa using h1) (by exact h2)]; rfl
  | case4 inp inputs choice h1 h2 sr hs =>
    rw [menuLoop_choice2_stash_ok_noresp _ _ _ _ _ (by simpa using h1)
          (by exact h2) hs]
    simp [usePayloadsEq]
  | case5 inp inputs choice h1 h2 sr hs rr tail hr =>
    rw [menuLoop_choice2 _ _ _ _ _ _ _ (by simpa using h1) (by exact h2)]
    simp [hs, hr, usePayloadsEq]
  | case6 inp inputs choice h1 h2 sr hs rr tail hr =>
    rw [menuLoop_choice2 _ _ _ _ _ _ _ (by simpa using h1) (by exact h2)]
    simp only [Bool.not_eq_true] at hr
    simp [hs, hr, usePayloadsEq]
  | case7 inp inputs choice h1 h2 sr tail hs ih =>
    simp only [Bool.not_eq_true] at hs
    rw [menuLoop_choice2_stash_fail _ _ _ _ _ _ (by simpa using h1)
          (by exact h2) hs]
    simp only [usePayloadsEq, List.all_cons] at ih ⊢
    simp [ih]
  | case8 inp resps choice h1 h2 h3 =>
    rw [menuLoop_choice3_noconfirm _ _ _ _ (by simpa using h1)
          (by simpa using h2) (by exact h3)]
    rfl
  | case9 inp resps choice h1 h2 h3 confirmInp hc =>
    rw [menuLoop_choice3_yes_noai _ _ _ _ _ (by simpa using h1)
          (by simpa using h2) (by exact h3) hc]
    rfl
  | case10 inp choice h1 h2 h3 confirmInp hc aiInp tail =>
    rw [menuLoop_choice3_yes_noresp _ _ _ _ _ _ (by simpa using h1)
          (by simpa using h2) (by exact h3) hc]
    by_cases hai : (lowerAscii (strip aiInp) == "y" && !changed.isEmpty) = true <;>
      simp [hai, usePayloadsEq]
  | case11 inp choice h1 h2 h3 confirmInp hc aiInp tail r₁ =>
    rw [menuLoop_choice3_yes_oneresp _ _ _ _ _ _ _ (by simpa using h1)
          (by simpa using h2) (by exact h3) hc]
    by_cases hai : (lowerAscii (strip aiInp) == "y" && !changed.isEmpty) = true <;>
      simp [hai, usePayloadsEq]
  | case12 inp choice h1 h2 h3 confirmInp hc aiInp tail r₁ r₂ =>
    rw [menuLoop_choice3_yes_tworesp _ _ _ _ _ _ _ _ (by simpa using h1)
          (by simpa using h2) (by exact h3) hc]
    by_cases hai : (lowerAscii (strip aiInp) == "y" && !changed.isEmpty) = true <;>
      simp [hai, usePayloadsEq]
  | case13 inp choice h1 h2 h3 confirmInp hc aiInp tail r₁ r₂ rr tail₁ hr =>
    rw [menuLoop_choice3_confirmed _ _ _ _ _ _ _ _ _ _ (by simpa using h1)
          (by simpa using h2) (by exact h3) hc]
    by_cases hai : (lowerAscii (strip aiInp) == "y" && !changed.isEmpty) = true <;>
      simp [hai, hr, usePayloadsEq]
  | case14 inp choice h1 h2 h3 confirmInp hc aiInp tail r₁ r₂ rr tail₁ hr =>
    rw [menuLoop_choice3_confirmed _ _ _ _ _ _ _ _ _ _ (by simpa using h1)
          (by simpa using h2) (by exact h3) hc]
    by_cases hai : (lowerAscii (strip aiInp) == "y" && !changed.isEmpty) = true <;>
      simp [hai, hr, usePayloadsEq]
  | case15 inp resps choice h1 h2 h3 confirmInp tail hc ih =>
    simp only [Bool.not_eq_true] at hc
    rw [menuLoop_choice3_not_confirmed _ _ _ _ _ _ (by simpa using h1)
          (by simpa using h2) (by exact h3) hc]
    exact ih
  | case16 inp inputs resps choice h1 h2 h3 h4 =>
    rw [menuLoop_choice4 _ _ _ _ _ (by simpa using h1) (by simpa using h2)
          (by simpa using h3) (by exact h4)]
    rfl
  | case17 inp inputs resps choice h1 h2 h3 h4 ih =>
    rw [menuLoop_invalid_choice _ _ _ _ _ (by simpa using h1) (by simpa using h2)
          (by simpa using h3) (by simpa using h4)]
    exact ih

set_option maxHeartbeats 4000000 in
theorem menuLoop_no_yes_no_discard (b : String) (cn : Bool)
    (changed : List String) (inputs : List String) (resps : List CmdResult)
    (hin : inputs.all (fun i => !(strip i == "YES")) = true) :
    (menuLoop (Cmd.checkout b cn) changed inputs resps).2.all
      (fun e => !(issuesDiscard e)) = true := by
  revert hin
  induction inputs, resps using menuLoop.induct (Cmd.checkout b cn) changed with
  | case1 resps => intro hin; rw [menuLoop_nil]; rfl
  | case2 inp inputs resps choice h1 =>
    intro hin; rw [menuLoop_choice1 _ _ _ _ _ (by exact h1)]; rfl
  | case3 inp inputs choice h1 h2 =>
    intro hin
    rw [menuLoop_choice2_noresp _ _ _ _ (by simpa using h1) (by exact h2)]; rfl
  | case4 inp inputs choice h1 h2 sr hs =>
    intro hin
    rw [menuLoop_choice2_stash_ok_noresp _ _ _ _ _ (by simpa using h1)
          (by exact h2) hs]
    simp [issuesDiscard]
  | case5 inp inputs choice h1 h2 sr hs rr tail hr =>
    intro hin
    rw [menuLoop_choice2 _ _ _ _ _ _ _ (by simpa using h1) (by exact h2)]
    simp [hs, hr, issuesDiscard]
  | case6 inp inputs choice h1 h2 sr hs rr tail hr =>
    intro hin
    rw [menuLoop_choice2 _ _ _ _ _ _ _ (by simpa using h1) (by exact h2)]
    simp only [Bool.not_eq_true] at hr
    simp [hs, hr, issuesDiscard]
  | case7 inp inputs choice h1 h2 sr tail hs ih =>
    intro hin
    simp only [List.all_cons, Bool.and_eq_true] at hin
    simp only [Bool.not_eq_true] at hs
    rw [menuLoop_choice2_stash_fail _ _ _ _ _ _ (by simpa using h1)
          (by exact h2) hs]
    simp only [List.all_cons, Bool.and_eq_true]
    exact ⟨rfl, ih hin.2⟩
  | case8 inp resps choice h1 h2 h3 =>
    intro hin
    rw [menuLoop_choice3_noconfirm _ _ _ _ (by simpa using h1)
          (by simpa using h2) (by exact h3)]
    rfl
  | case9 inp resps choice h1 h2 h3 confirmInp hc =>
    intro hin
    simp only [List.all_cons, Bool.and_eq_true, Bool.not_eq_true'] at hin
    simp [hin.2.1] at hc
  | case10 inp choice h1 h2 h3 confirmInp hc aiInp tail =>
    intro hin
    simp only [List.all_cons, Bool.and_eq_true, Bool.not_eq_true'] at hin
    simp [hin.2.1] at hc
  | case11 inp choice h1 h2 h3 confirmInp hc aiInp tail r₁ =>
    intro hin
    simp only [List.all_cons, Bool.and_eq_true, Bool.not_eq_true'] at hin
    simp [hin.2.1] at hc
  | case12 inp choice h1 h2 h3 confirmInp hc aiInp tail r₁ r₂ =>
    intro hin
    simp only [List.all_cons, Bool.and_eq_true, Bool.not_eq_true'] at hin
    simp [hin.2.1] at hc
  | case13 inp choice h1 h2 h3 confirmInp hc aiInp tail r₁ r₂ rr tail₁ hr =>
    intro hin
    simp only [List.all_cons, Bool.and_eq_true, Bool.not_eq_true'] at hin
    simp [hin.2.1] at hc
  | case14 inp choice h1 h2 h3 confirmInp hc aiInp tail r₁ r₂ rr tail₁ hr =>
    intro hin
    simp only [List.all_cons, Bool.and_eq_true, Bool.not_eq_true'] at hin
    simp [hin.2.1] at hc
  | case15 inp resps choice h1 h2 h3 confirmInp tail hc ih =>
    intro hin
    simp only [List.all_cons, Bool.and_eq_true] at hin
    simp only [Bool.not_eq_true] at hc
    rw [menuLoop_choice3_not_confirmed _ _ _ _ _ _ (by simpa using h1)
          (by simpa using h2) (by exact h3) hc]
    exact ih (by simpa using hin.2.2)
  | case16 inp inputs resps choice h1 h2 h3 h4 =>
    intro hin
    rw [menuLoop_choice4 _ _ _ _ _ (by simpa using h1) (by simpa using h2)
          (by simpa using h3) (by exact h4)]
    rfl
  | case17 inp inputs resps choice h1 h2 h3 h4 ih =>
    intro hin
    simp only [List.all_cons, Bool.and_eq_true] at hin
    rw [menuLoop_invalid_choice _ _ _ _ _ (by simpa using h1) (by simpa using h2)
          (by simpa using h3) (by simpa using h4)]
    exact ih hin.2

/-- **C5**: during one blocked-checkout episode, every display of the
changed-files list and every `.gitignore` use of it carries exactly the list
derived from the porcelain status response of that episode
(`usePayloadsEq`), and no such use ever occurs after a successful stash or
discard within the episode (`noUseAfterMut`) — the list is never consumed
across a tree mutation, i.e. each use reflects the porcelain state current
at that point of the trace. -/
theorem changed_files_always_fresh (b : String) (cn : Bool) (r0 r1 : CmdResult)
    (resps : List CmdResult) (inputs : List String)
    (h0 : (r0.returncode == 0) = false) (hd : dirtyWorktreeMsg r0.stderr = true)
    (h1 : (r1.returncode == 0) = true) :
    usePayloadsEq (changedFilesOf r1.stdout)
      (safe_checkout b cn (r0 :: r1 :: resps) inputs).2 = true ∧
    noUseAfterMut (safe_checkout b cn (r0 :: r1 :: resps) inputs).2 = true := by
  rw [safe_checkout_blocked _ _ _ _ _ _ h0 hd h1]
  constructor
  · have hm := menuLoop_usePayloads (Cmd.checkout b cn)
      (changedFilesOf r1.stdout) inputs resps
    simp only [usePayloadsEq, displayEvents, List.all_cons, List.all_append] at hm ⊢
    by_cases hemp : (changedFilesOf r1.stdout).isEmpty <;> simp [hemp, hm]
  · have hm := menuLoop_noUseAfterMut (Cmd.checkout b cn)
      (changedFilesOf r1.stdout) inputs resps
    simp only [displayEvents]
    by_cases hemp : (changedFilesOf r1.stdout).isEmpty <;>
      simp [hemp, noUseAfterMut, successfulStashOrDiscard, hm]

/-- Witness for `changed_files_always_fresh` on a run that exercises the
`.gitignore` append before the discard. -/
theorem changed_files_always_fresh_witness :
    ((exBlockedResult.returncode == 0) = false ∧
     dirtyWorktreeMsg exBlockedResult.stderr = true ∧
     (exStatusResult.returncode == 0) = true) ∧
    (usePayloadsEq (changedFilesOf exStatusResult.stdout)
       (safe_checkout "develop" false
         [exBlockedResult, exStatusResult, exOkResult, exOkResult, exOkResult]
         ["3", "YES", "y"]).2 = true ∧
     noUseAfterMut
       (safe_checkout "develop" false
         [exBlockedResult, exStatusResult, exOkResult, exOkResult, exOkResult]
         ["3", "YES", "y"]).2 = true) :=
  ⟨⟨by decide, by decide, by decide⟩,
   changed_files_always_fresh "develop" false exBlockedResult exStatusResult
     [exOkResult, exOkResult, exOkResult] ["3", "YES", "y"]
     (by decide) (by decide) (by decide)⟩

/-- **C6 counterexample**: the destructive discard *is* performed after the
confirmation input `" YES"`, which is not the literal case-sensitive string
`"YES"` — line 168 strips the input before comparing, so the claim's "for
every other confirmation input, no backend-mutating command is issued" fails
at the input `" YES"`. -/
theorem discard_after_nonliteral_confirmation :
    " YES" ≠ "YES" ∧
    (safe_checkout "develop" false
        [exBlockedResult, exStatusResult, exOkResult, exOkResult, exOkResult]
        ["3", " YES", "n"]).2.any issuesDiscard = true := by
  decide

/-- **C6 (amended)**: the destructive discard is gated on a confirmation
input that equals `"YES"` (case-sensitively) after stripping surrounding
whitespace: any confirmation input that does not strip to `"YES"` loops
straight back to the menu with no command issued (first conjunct, an exact
trace equality), and a blocked episode none of whose operator inputs strips
to `"YES"` never issues a reset or clean command (second conjunct). -/
theorem discard_needs_stripped_yes (b : String) (cn : Bool)
    (changed : List String) :
    (∀ (confirmInp : String) (inputs : List String) (resps : List CmdResult),
       (strip confirmInp == "YES") = false →
       menuLoop (Cmd.checkout b cn) changed ("3" :: confirmInp :: inputs) resps =
         menuLoop (Cmd.checkout b cn) changed inputs resps) ∧
    (∀ (inputs : List String) (resps : List CmdResult),
       inputs.all (fun i => !(strip i == "YES")) = true →
       (menuLoop (Cmd.checkout b cn) changed inputs resps).2.all
         (fun e => !(issuesDiscard e)) = true) :=
  ⟨fun confirmInp inputs resps hc =>
     menuLoop_choice3_not_confirmed _ _ _ _ _ _ (by decide) (by decide)
       (by decide) hc,
   fun inputs resps hin =>
     menuLoop_no_yes_no_discard b cn changed inputs resps hin⟩

/-- Witness for `discard_needs_stripped_yes`: the confirmation input `"no"`
does not strip to `"YES"`, so control loops back to the menu, and a run
whose inputs never strip to `"YES"` issues no discard command. -/
theorem discard_needs_stripped_yes_witness :
    ((strip "no" == "YES") = false ∧
     menuLoop (Cmd.checkout "develop" false) ["a.txt"] ["3", "no", "4"] [] =
       menuLoop (Cmd.checkout "develop" false) ["a.txt"] ["4"] []) ∧
    ((["3", "no", "4"].all (fun i => !(strip i == "YES"))) = true ∧
     (menuLoop (Cmd.checkout "develop" false) ["a.txt"] ["3", "no", "4"] []).2.all
       (fun e => !(issuesDiscard e)) = true) :=
  ⟨⟨by decide,
    (discard_needs_stripped_yes "develop" false ["a.txt"]).1 "no" ["4"] []
      (by decide)⟩,
   ⟨by decide,
    (discard_needs_stripped_yes "develop" false ["a.txt"]).2 ["3", "no", "4"] []
      (by decide)⟩⟩

/-- **C2**: on every termination of the check-in script — normal success,
fatal non-zero exit, operator abort, or the no-changes early exit — the
registered `atexit` handler runs after the script's own commands: it issues
a checkout of `develop` exactly when the process is not already on
`develop`, always issues a `git pull origin develop`, and thereby issues a
working-tree-mutating command after the script's declared outcome. -/
theorem cleanup_runs_on_every_exit (t : Termination) (scriptCmds : List Cmd)
    (b : String) :
    (terminateProcess t scriptCmds b).1 = declaredExitCode t ∧
    (terminateProcess t scriptCmds b).2 =
      scriptCmds ++ cleanup_and_return_to_develop b ∧
    (Cmd.checkout "develop" false ∈ cleanup_and_return_to_develop b ↔
      b ≠ "develop") ∧
    Cmd.pull "origin" "develop" ∈ cleanup_and_return_to_develop b ∧
    (cleanup_and_return_to_develop b).any treeMutating = true := by
  refine ⟨rfl, rfl, ?_, ?_, ?_⟩
  · by_cases hb : b = "develop" <;> simp [cleanup_and_return_to_develop, hb]
  · by_cases hb : b = "develop" <;> simp [cleanup_and_return_to_develop, hb]
  · by_cases hb : b = "develop" <;>
      simp [cleanup_and_return_to_develop, hb, treeMutating]

/-- **C7**: from a clean worktree on `develop` with no tag `v1.2.3` (locally
or remotely), running with version `1.2.3` succeeds, creating and pushing
exactly one annotated tag `v1.2.3`; re-running without `--force` exits with
status 1, leaves the state untouched, and issues no tag-mutating command;
re-running with `--force` deletes the tag locally and on the remote and
recreates and re-pushes it, ending with exactly one `v1.2.3` on each side. -/
theorem release_tag_flow (st : TagState)
    (hin : st.insideRepo = true) (hbr : st.branch = "develop")
    (hclean : strip st.statusOut = "")
    (hcnt : st.localTags.count "v1.2.3" = 0)
    (hcntR : st.remoteTags.count "v1.2.3" = 0) :
    ((relMain relArgsV123 st).1 = RelOutcome.okDone ∧
     (relMain relArgsV123 st).2.1.localTags.count "v1.2.3" = 1 ∧
     (relMain relArgsV123 st).2.1.remoteTags.count "v1.2.3" = 1 ∧
     (relMain relArgsV123 st).2.2.count
       (Cmd.tagCreate "v1.2.3" "Release v1.2.3") = 1 ∧
     (relMain relArgsV123 st).2.2.count (Cmd.pushTag "origin" "v1.2.3") = 1) ∧
    ((relMain relArgsV123 (relMain relArgsV123 st).2.1).1 = RelOutcome.exited 1 ∧
     (relMain relArgsV123 (relMain relArgsV123 st).2.1).2.1 =
       (relMain relArgsV123 st).2.1 ∧
     (relMain relArgsV123 (relMain relArgsV123 st).2.1).2.2.all
       (fun c => !(tagMutating c)) = true) ∧
    ((relMain relArgsV123Force (relMain relArgsV123 st).2.1).1 =
       RelOutcome.okDone ∧
     (relMain relArgsV123Force (relMain relArgsV123 st).2.1).2.2 =
       [Cmd.revParseInside, Cmd.revParseHead, Cmd.status,
        Cmd.fetch "origin" "develop", Cmd.pull "origin" "develop",
        Cmd.verifyTag "v1.2.3", Cmd.tagDelete "v1.2.3",
        Cmd.pushDeleteTag "origin" "v1.2.3",
        Cmd.tagCreate "v1.2.3" "Release v1.2.3",
        Cmd.pushTag "origin" "v1.2.3"] ∧
     (relMain relArgsV123Force (relMain relArgsV123 st).2.1).2.1.localTags.count
       "v1.2.3" = 1 ∧
     (relMain relArgsV123Force (relMain relArgsV123 st).2.1).2.1.remoteTags.count
       "v1.2.3" = 1) := by
  have hv : validate_semver "1.2.3" = true := by decide
  have htag : "v" ++ "1.2.3" = "v1.2.3" := rfl
  have hmem : "v1.2.3" ∉ st.localTags := by
    intro hm
    have := List.count_pos_iff.mpr hm
    omega
  have hmemR : "v1.2.3" ∉ st.remoteTags := by
    intro hm
    have := List.count_pos_iff.mpr hm
    omega
  have e1 : relMain relArgsV123 st =
      (RelOutcome.okDone,
       { st with localTags := "v1.2.3" :: st.localTags,
                 remoteTags := "v1.2.3" :: st.remoteTags },
       [Cmd.revParseInside, Cmd.revParseHead, Cmd.status,
        Cmd.fetch "origin" "develop", Cmd.pull "origin" "develop",
        Cmd.verifyTag "v1.2.3", Cmd.tagCreate "v1.2.3" "Release v1.2.3",
        Cmd.pushTag "origin" "v1.2.3"]) := by
    unfold relMain
    simp [relArgsV123, hv, hin, hbr, ensure_clean_worktree, hclean,
          tag_exists, htag, hmem]
  rw [e1]
  have e2 : relMain relArgsV123
      ({ st with localTags := "v1.2.3" :: st.localTags,
                 remoteTags := "v1.2.3" :: st.remoteTags } : TagState) =
      (RelOutcome.exited 1,
       { st with localTags := "v1.2.3" :: st.localTags,
                 remoteTags := "v1.2.3" :: st.remoteTags },
       [Cmd.revParseInside, Cmd.revParseHead, Cmd.status,
        Cmd.fetch "origin" "develop", Cmd.pull "origin" "develop",
        Cmd.verifyTag "v1.2.3"]) := by
    unfold relMain
    simp [relArgsV123, hv, hin, hbr, ensure_clean_worktree, hclean,
          tag_exists, htag]
  have e3 : relMain relArgsV123Force
      ({ st with localTags := "v1.2.3" :: st.localTags,
                 remoteTags := "v1.2.3" :: st.remoteTags } : TagState) =
      (RelOutcome.okDone,
       { st with localTags := "v1.2.3" :: st.localTags,
                 remoteTags := "v1.2.3" :: st.remoteTags },
       [Cmd.revParseInside, Cmd.revParseHead, Cmd.status,
        Cmd.fetch "origin" "develop", Cmd.pull "origin" "develop",
        Cmd.verifyTag "v1.2.3", Cmd.tagDelete "v1.2.3",
        Cmd.pushDeleteTag "origin" "v1.2.3",
        Cmd.tagCreate "v1.2.3" "Release v1.2.3",
        Cmd.pushTag "origin" "v1.2.3"]) := by
    unfold relMain
    simp [relArgsV123Force, hv, hin, hbr, ensure_clean_worktree, hclean,
          tag_exists, htag, List.erase_cons_head]
  rw [e2, e3]
  refine ⟨⟨rfl, ?_, ?_, by rfl, by rfl⟩, ⟨rfl, rfl, by rfl⟩,
          ⟨rfl, rfl, ?_, ?_⟩⟩
  · rw [List.count_cons_self, hcnt]
  · rw [List.count_cons_self, hcntR]
  · rw [List.count_cons_self, hcnt]
  · rw [List.count_cons_self, hcntR]

/-- Witness for `release_tag_flow` at the fresh state. -/
theorem release_tag_flow_witness :
    (exTagState.insideRepo = true ∧ exTagState.branch = "develop" ∧
     strip exTagState.statusOut = "" ∧
     exTagState.localTags.count "v1.2.3" = 0 ∧
     exTagState.remoteTags.count "v1.2.3" = 0) ∧
    ((relMain relArgsV123 exTagState).1 = RelOutcome.okDone ∧
     (relMain relArgsV123 exTagState).2.1.localTags.count "v1.2.3" = 1 ∧
     (relMain relArgsV123 (relMain relArgsV123 exTagState).2.1).1 =
       RelOutcome.exited 1 ∧
     (relMain relArgsV123Force (relMain relArgsV123 exTagState).2.1).1 =
       RelOutcome.okDone) :=
  ⟨⟨rfl, rfl, rfl, rfl, rfl⟩,
   ⟨(release_tag_flow exTagState rfl rfl rfl rfl rfl).1.1,
    (release_tag_flow exTagState rfl rfl rfl rfl rfl).1.2.1,
    (release_tag_flow exTagState rfl rfl rfl rfl rfl).2.1.1,
    (release_tag_flow exTagState rfl rfl rfl rfl rfl).2.2.1⟩⟩

/-- Witness for `cleanup_runs_on_every_exit`: an operator abort from a
feature branch exits 0 and the handler both checks out develop and pulls. -/
theorem cleanup_runs_on_every_exit_witness :
    (terminateProcess Termination.operatorAbort [] "feature/x").1 = 0 ∧
    Cmd.checkout "develop" false ∈ cleanup_and_return_to_develop "feature/x" ∧
    Cmd.pull "origin" "develop" ∈ cleanup_and_return_to_develop "feature/x" :=
  ⟨(cleanup_runs_on_every_exit Termination.operatorAbort [] "feature/x").1,
   (cleanup_runs_on_every_exit Termination.operatorAbort [] "feature/x").2.2.1.mpr
     (by decide),
   (cleanup_runs_on_every_exit Termination.operatorAbort [] "feature/x").2.2.2.1⟩
